import Mathlib

/-!
Verification development for the private-blockchain star registry
(src/src/blockchain.js). The `Blockchain` class is embedded shallowly:
promise-returning methods become pure functions returning their settled
outcome together with the chain state after the call; the external
collaborators (cryptographic digest, signature verifier, wall clock) are
parameters. `block.js` is not part of the sources, so the Block entity is
modelled from the spec where noted.
-/

namespace StarRegistry

/-- Star payload carried by a registration request (blockchain.js line 157
builds the block body from the owner address and this descriptor). -/
structure Star where
  dec : String
  ra : String
  story : String
deriving DecidableEq

/-- Decoded block body: either the fixed genesis marker built at blockchain.js
line 55, or a registration payload with owner and star (line 157). The
encode/decode pair applied by the Block entity is an external codec satisfying
decode (encode x) = x (spec section 6), so bodies are modelled by their decoded
content. -/
inductive Body where
  | genesis
  | star (owner : String) (payload : Star)
deriving DecidableEq

/-- Block record. Modelled from the spec: block.js is not under src/; per
section 3 a block carries height, time, previousHash, hash and an opaque body.
The absent JavaScript value (null) for a hash field is Option.none. -/
structure Block where
  height : Int
  time : String
  previousBlockHash : Option String
  hash : Option String
  body : Body
deriving DecidableEq

/-- Modelled from the spec: block.js is not under src/. The Block constructor
leaves hash and previousBlockHash null (section 3: previousHash is null iff
height is 0; source comment at blockchain.js line 95: the genesis block keeps
the initialized null value); height and time are assigned at append time. -/
def Block.new (body : Body) : Block :=
  { height := 0, time := "", previousBlockHash := none, hash := none, body := body }

/-- Modelled from the spec: block.js is not under src/. Per section 4.1,
validate recomputes the digest from the current field values excluding the
stored hash and compares it with that hash, returning a boolean outcome and
never rejecting. The external digest primitive is a parameter. -/
def Block.validate (digest : Block → String) (b : Block) : Bool :=
  b.hash == some (digest { b with hash := none })

/-- Modelled from the spec: block.js is not under src/. Per section 4.1,
decoding a body yields the genesis marker for the genesis block and the stored
registration payload otherwise; since bodies are modelled decoded, getBData is
the body itself. -/
def Block.getBData (b : Block) : Body :=
  b.body

/-- Owner field of a decoded body as read by data.owner at blockchain.js line
225: undefined (none) on the genesis marker. -/
def Body.owner : Body → Option String
  | Body.genesis => none
  | Body.star o _ => some o

/-- Chain aggregate (blockchain.js lines 26-28): the ordered block array and
the height counter, -1 before genesis exists. -/
structure Blockchain where
  chain : List Block
  height : Int
deriving DecidableEq

/-- State set up by the first two constructor statements (blockchain.js lines
27-28). -/
def blockchainFresh : Blockchain :=
  { chain := [], height := -1 }

/-- Embeds _addBlock (blockchain.js lines 83-111). The new height is
self.height + 1; only when self.height > 0 is the last committed block's hash
copied into previousBlockHash (line 92), so the block appended at height 1
keeps the constructor's null as well. The block is stamped with the clock
reading, hashed over its current fields (its hash field still null for blocks
fresh from the Block constructor), appended, and the chain height updated. -/
def Blockchain._addBlock (digest : Block → String) (now : String) (block : Block)
    (self : Blockchain) : Block × Blockchain :=
  let updated_height := self.height + 1
  let block1 := { block with height := updated_height }
  let block2 :=
    if self.height > 0 then
      { block1 with previousBlockHash := (self.chain.getLast?).bind Block.hash }
    else block1
  let block3 := { block2 with time := now }
  let block4 := { block3 with hash := some (digest block3) }
  (block4, { chain := self.chain ++ [block4], height := updated_height })

/-- Embeds initializeChain (blockchain.js lines 53-58): appends the genesis
block only while the height is still -1, a no-op afterwards. -/
def Blockchain.initializeChain (digest : Block → String) (now : String)
    (self : Blockchain) : Blockchain :=
  if self.height = -1 then
    (Blockchain._addBlock digest now (Block.new Body.genesis) self).2
  else self

/-- Embeds getChainHeight (blockchain.js lines 63-69). -/
def Blockchain.getChainHeight (self : Blockchain) : Int :=
  self.height

/-- Embeds requestMessageOwnershipVerification (blockchain.js lines 121-125).
The source resolves an ordinary double-quoted string, not a backtick template
literal, so no interpolation happens: the resolved value is the literal text
below for every address and every clock reading. Both are kept as parameters
so that this independence can be stated. -/
def requestMessageOwnershipVerification (address : String) (now : Int) : String :=
  "$\x7baddress\x7d:$\x7bnew Date().getTime().toString().slice(0, -3)\x7d:starRegistry"

/-- Splits a character list at every occurrence of the separator, modelling
the JavaScript split at blockchain.js line 148. -/
def splitOnChar (sep : Char) : List Char → List (List Char)
  | [] => [[]]
  | a :: rest =>
    let r := splitOnChar sep rest
    if a = sep then [] :: r
    else
      match r with
      | [] => [[a]]
      | g :: gs => (a :: g) :: gs

/-- Decimal value of a digit prefix, as parseInt reads it. -/
def digitsToNat (ds : List Char) : Nat :=
  ds.foldl (fun n c => 10 * n + (c.toNat - 48)) 0

/-- Models parseInt on the strings the workflow produces: the value of the
longest digit prefix, NaN (none) when there is none. -/
def parseIntJS (s : List Char) : Option Int :=
  let ds := s.takeWhile (fun c => c.isDigit)
  if ds.isEmpty then none else some ((digitsToNat ds : Nat) : Int)

/-- The timestamp embedded in a challenge message, the second colon-separated
field fed to parseInt (blockchain.js line 148). -/
def messageTime (message : String) : Option Int :=
  ((splitOnChar ':' message.data).get? 1).bind parseIntJS

/-- The elapsed_time of blockchain.js line 150: the current clock reading
minus the embedded timestamp. Computed by the source but never consulted,
because the expiry comparison at lines 151-153 is commented out. -/
def elapsedTime (currentTime : Int) (message : String) : Option Int :=
  (messageTime message).map (fun t => currentTime - t)

/-- Embeds submitStar (blockchain.js lines 144-165). The embedded timestamp
and elapsed time are computed (lines 148-150) but the expiry check (lines
151-153) is commented out in the source, so the outcome depends only on the
external signature verifier: on success the chain is (idempotently)
initialized, a registration block is built and appended, and the promise
resolves with it; otherwise the promise rejects with the validation message
and nothing is mutated. Returns the settled outcome together with the chain
state after the call. -/
def Blockchain.submitStar (digest : Block → String)
    (verify : String → String → String → Bool) (currentTime : Int) (now : String)
    (address message signature : String) (star : Star) (self : Blockchain) :
    Except String Block × Blockchain :=
  let _elapsed := elapsedTime currentTime message
  if verify message address signature then
    let self1 := Blockchain.initializeChain digest now self
    let block := Block.new (Body.star address star)
    let p := Blockchain._addBlock digest now block self1
    (Except.ok p.1, p.2)
  else
    (Except.error "Message with address and signature failed the validation", self)

/-- Value of the JavaScript test on blockchain.js line 180, which reads the
property lenght (a misspelling of length): the access yields undefined and the
strict comparison of undefined with 1 is false for every array. -/
def lenghtStrictEqOne : Bool := false

/-- Value of the JavaScript test on blockchain.js line 183, comparing the
filter result loosely with null: filter always returns an array and an array
is never loosely equal to null, so this is false as well. -/
def filterResultLooseEqNull : Bool := false

/-- Embeds getBlockByHash (blockchain.js lines 173-192): filters the chain for
blocks carrying the given hash, then runs the two dead tests above, so control
always reaches the final branch and the promise rejects with the
more-than-one-block message, even when exactly one block matches. (The first,
unreachable branch would resolve with the filtered array, not a single
block.) -/
def Blockchain.getBlockByHash (hash : String) (self : Blockchain) :
    Except String (List Block) :=
  let matching_block_array := self.chain.filter (fun block => block.hash == some hash)
  if lenghtStrictEqOne then Except.ok matching_block_array
  else if filterResultLooseEqNull then
    Except.error "Blockchain does countain a block with this hash value"
  else
    Except.error "Blockchain countains more than one block with the same hash value"

/-- Embeds getBlockByHeight (blockchain.js lines 199-209): the first block
whose height equals the argument, null when there is none. -/
def Blockchain.getBlockByHeight (height : Int) (self : Blockchain) : Option Block :=
  (self.chain.filter (fun p => p.height == height)).head?

/-- Outcome of a getStarsByWalletAddress call, separating the value the
promise is resolved with from what is still outstanding at that moment and
from what the callbacks later turn the array into. -/
structure StarQuery where
  resolvedValue : List Body
  pendingDecodes : Nat
  eventualValue : List Body
deriving DecidableEq

/-- Embeds getStarsByWalletAddress (blockchain.js lines 217-234) together with
the JavaScript scheduling it relies on. forEach invokes one async callback per
block; each callback suspends at the awaited getBData before performing its
push, while resolve(stars) runs in the same synchronous pass, so the promise
is resolved while stars is still empty and one decode per block is still
pending. The suspended callbacks then resume in submission (ascending height)
order and mutate the already-resolved array towards eventualValue: the decoded
bodies whose owner field equals the address (the genesis marker has none). -/
def Blockchain.getStarsByWalletAddress (address : String) (self : Blockchain) :
    StarQuery :=
  { resolvedValue := []
    pendingDecodes := self.chain.length
    eventualValue :=
      (self.chain.filter (fun b => Body.owner (Block.getBData b) == some address)).map
        Block.getBData }

/-- Follows the spec's words (section 4.4): the decoded bodies of all
non-genesis blocks whose owner equals the address, in ascending height order,
delivered only after every decode has completed. Stated for comparison with
the embedding above. -/
def specStarsByWalletAddress (address : String) (self : Blockchain) : List Body :=
  (self.chain.filter (fun b => Body.owner (Block.getBData b) == some address)).map
    Block.getBData

/-- A finding reported by chain validation: a block whose self-validation
failed, or a block whose previous-hash link disagrees with its predecessor,
tagged with the block's height. -/
inductive Finding where
  | hashIntegrity (height : Int)
  | linkage (height : Int)
deriving DecidableEq

/-- Embeds validateChain (blockchain.js lines 242-264). For every block the
source fires block.validate() with an empty then-handler, discarding the
boolean outcome; the catch-handler never runs because validate resolves with a
boolean and never rejects (spec section 4.1), so no hash-integrity finding is
ever pushed. The linkage test pushes a finding whenever a block of positive
height disagrees with the tracked hash of the block walked just before it
(null before the first block). The promise always resolves with the
accumulated log. -/
def Blockchain.validateChain (self : Blockchain) : List Finding :=
  (self.chain.foldl
    (fun acc block =>
      let errorLog :=
        if block.height > 0 && acc.2 != block.previousBlockHash then
          acc.1 ++ [Finding.linkage block.height]
        else acc.1
      (errorLog, block.hash))
    (([] : List Finding), (none : Option String))).1

/-- Follows the spec's words (section 4.5): walk the chain in order, record a
hash-integrity finding for every block whose self-validation fails and a
linkage finding for every non-genesis block whose previousBlockHash differs
from its predecessor's hash, and return the whole log. Stated for comparison
with the embedding above. -/
def specValidateChain (digest : Block → String) (self : Blockchain) : List Finding :=
  (self.chain.foldl
    (fun acc block =>
      let log1 :=
        if Block.validate digest block then acc.1
        else acc.1 ++ [Finding.hashIntegrity block.height]
      let log2 :=
        if block.height > 0 && acc.2 != block.previousBlockHash then
          log1 ++ [Finding.linkage block.height]
        else log1
      (log2, block.hash))
    (([] : List Finding), (none : Option String))).1

/-- Hard-coded address of the constructor's embedded test call (line 32). -/
def testAddress : String := "1PqXTNFDEFmupGYFDzYhJUn4jgTtGPU51A"

/-- Hard-coded challenge message of the constructor's embedded test call
(line 33). -/
def testMessage : String := "1PqXTNFDEFmupGYFDzYhJUn4jgTtGPU51A:1641555438:starRegistry"

/-- Hard-coded signature of the constructor's embedded test call (line 34). -/
def testSignature : String := "H7Ifo3xVYhAIkcWtFGteTcEXDn1mNZIZz804W7eQKCDIX6dF1nOItjDFRqgL7pdLdBpqmioCFXr0ro33KXZY5cc="

/-- Hard-coded star of the constructor's embedded test call (lines 35-39). -/
def testStar : Star :=
  { dec := "332", ra := "w23", story := "my luckystar" }

/-- Embeds the Blockchain constructor (blockchain.js lines 26-46): sets up the
empty chain at height -1, initializes the genesis block, runs validateChain
(whose result is discarded and which performs no mutation), then performs the
hard-coded submitStar the source labels a unit test of the application,
keeping whatever state that call leaves behind. -/
def Blockchain.construct (digest : Block → String)
    (verify : String → String → String → Bool) (currentTime : Int) (now : String) :
    Blockchain :=
  let self := Blockchain.initializeChain digest now blockchainFresh
  let _findings := Blockchain.validateChain self
  (Blockchain.submitStar digest verify currentTime now testAddress testMessage
    testSignature testStar self).2

/-- Runs a sequence of append operations: each item supplies the clock reading
observed during its call and the fresh block handed to _addBlock. -/
def appendAll (digest : Block → String) (items : List (String × Block))
    (self : Blockchain) : Blockchain :=
  items.foldl (fun s it => (Blockchain._addBlock digest it.1 it.2 s).2) self

/-- Invariant tying the height counter and the stored heights to the chain
length: the counter is length - 1 and the committed heights read 0, 1, ...,
length - 1 in storage order. -/
def HeightsInv (self : Blockchain) : Prop :=
  self.height = (self.chain.length : Int) - 1 ∧
  self.chain.map Block.height = (List.range self.chain.length).map (fun n => (n : Int))

/-- Concrete committed genesis-style block used as a fixture. -/
def gBlock : Block :=
  { height := 0, time := "t0", previousBlockHash := none, hash := some "G",
    body := Body.genesis }

/-- One-block chain fixture at height 0. -/
def chainG : Blockchain :=
  { chain := [gBlock], height := 0 }

/-- Registration block fixture owned by address A. -/
def starBlockA : Block :=
  { height := 1, time := "t1", previousBlockHash := none, hash := some "H1",
    body := Body.star "A" testStar }

/-- Two-block chain fixture: genesis plus one registration block. -/
def aChain : Blockchain :=
  { chain := [gBlock, starBlockA], height := 1 }

/-- Block whose stored hash differs from the digest recomputed over its other
fields, so its self-validation fails. -/
def tamperedBlock : Block :=
  { height := 0, time := "t0", previousBlockHash := none, hash := some "bogus",
    body := Body.genesis }

/-- Chain fixture containing only the tampered block. -/
def tamperedChain : Blockchain :=
  { chain := [tamperedBlock], height := 0 }

/-- Challenge message whose embedded timestamp is the epoch, far outside every
expiry window. -/
def expiredMessage : String := "addr:0:starRegistry"

theorem heightsInv_fresh : HeightsInv blockchainFresh :=
  ⟨by decide, rfl⟩

theorem heightsInv_addBlock (digest : Block → String) (now : String) (block : Block)
    {self : Blockchain} (h : HeightsInv self) :
    HeightsInv (Blockchain._addBlock digest now block self).2 := by
  obtain ⟨h1, h2⟩ := h
  have hh : self.height + 1 = (self.chain.length : Int) := by omega
  constructor
  · by_cases hc : self.height > 0 <;>
      simp [Blockchain._addBlock, hc, List.length_append] <;> omega
  · by_cases hc : self.height > 0 <;>
      simp [Blockchain._addBlock, hc, List.length_append, List.range_succ, h2, hh]

theorem heightsInv_appendAll (digest : Block → String) (items : List (String × Block)) :
    ∀ self : Blockchain, HeightsInv self → HeightsInv (appendAll digest items self) := by
  induction items with
  | nil => intro self h; simpa [appendAll] using h
  | cons p rest ih =>
    intro self h
    have step := heightsInv_addBlock digest p.1 p.2 h
    simpa [appendAll] using ih _ step

/-- C8: for every chain built only through the append operation, the committed
heights are exactly 0, 1, ..., length - 1 in storage order, so the block stored
at index i has height i with no gaps. -/
theorem appendAll_heights_contiguous (digest : Block → String)
    (items : List (String × Block)) :
    (appendAll digest items blockchainFresh).chain.map Block.height =
      (List.range (appendAll digest items blockchainFresh).chain.length).map
        (fun n => (n : Int)) :=
  (heightsInv_appendAll digest items blockchainFresh heightsInv_fresh).2

/-- C2: the block appended second (at height 1) keeps a null previousBlockHash
although its predecessor carries a real hash, because _addBlock copies the
previous hash only when the chain height before the call is strictly positive
(blockchain.js line 92); so previousBlockHash is null at a height above 0 and
differs from the predecessor's digest. -/
theorem second_block_previousHash_null (digest : Block → String)
    (n1 n2 : String) (b1 b2 : Body) :
    (appendAll digest [(n1, Block.new b1), (n2, Block.new b2)] blockchainFresh).chain.map
        Block.height = [0, 1] ∧
    (appendAll digest [(n1, Block.new b1), (n2, Block.new b2)] blockchainFresh).chain.map
        Block.previousBlockHash = [none, none] ∧
    (appendAll digest [(n1, Block.new b1), (n2, Block.new b2)] blockchainFresh).chain.map
        (fun b => b.hash.isSome) = [true, true] :=
  ⟨rfl, rfl, rfl⟩

/-- C1: the expiry check of blockchain.js lines 151-153 is commented out, so a
submission whose embedded timestamp lies 1641555438 seconds in the past (far
beyond the 300-second window) is still accepted when the signature verifies:
the call resolves successfully and appends a block instead of rejecting with
an expired-challenge error. -/
theorem submitStar_accepts_expired_challenge :
    elapsedTime 1641555438 expiredMessage = some 1641555438 ∧
    (1641555438 : Int) > 300 ∧
    (Blockchain.submitStar (fun _ => "D") (fun _ _ _ => true) 1641555438 "now"
        "addr" expiredMessage "sig" testStar chainG).1.isOk = true ∧
    (Blockchain.submitStar (fun _ => "D") (fun _ _ _ => true) 1641555438 "now"
        "addr" expiredMessage "sig" testStar chainG).2.chain.length =
      chainG.chain.length + 1 :=
  ⟨by decide, by decide, rfl, rfl⟩

/-- C3: validateChain discards the outcome of every per-block self-validation
(empty then-handler, blockchain.js lines 249-252), so a chain holding a block
whose self-validation fails still yields an empty finding list, while the
validator the spec describes reports the hash-integrity finding at that
height. -/
theorem validateChain_misses_hash_integrity :
    Blockchain.validateChain tamperedChain = [] ∧
    Block.validate (fun _ => "real") tamperedBlock = false ∧
    specValidateChain (fun _ => "real") tamperedChain = [Finding.hashIntegrity 0] :=
  ⟨rfl, rfl, rfl⟩

/-- C4: on a chain holding exactly one block with the requested hash,
getBlockByHash still rejects with the more-than-one-block message, because the
misspelled length test on blockchain.js line 180 and the null test on line 183
are both always false. -/
theorem getBlockByHash_rejects_unique_match :
    (chainG.chain.filter (fun b => b.hash == some "G")).length = 1 ∧
    Blockchain.getBlockByHash "G" chainG =
      Except.error "Blockchain countains more than one block with the same hash value" :=
  ⟨rfl, rfl⟩

/-- C5: on a chain holding one registration block owned by A, the star query's
promise is resolved while the stars array is still empty and both block
decodes are still pending, whereas the spec requires it to resolve, only after
every decode, with the decoded body of A's block. -/
theorem starQuery_resolves_before_decodes :
    (Blockchain.getStarsByWalletAddress "A" aChain).resolvedValue = [] ∧
    (Blockchain.getStarsByWalletAddress "A" aChain).pendingDecodes = 2 ∧
    specStarsByWalletAddress "A" aChain = [Body.star "A" testStar] :=
  ⟨rfl, rfl, rfl⟩

/-- C6: the challenge message is not the formatted
address:epochSeconds:starRegistry string, because the source quotes the
template with ordinary double quotes (blockchain.js line 123): for address
abc at clock reading 5 the resolved value is the uninterpolated literal, not
abc:5:starRegistry. -/
theorem request_message_not_interpolated :
    requestMessageOwnershipVerification "abc" 5 =
      "$\x7baddress\x7d:$\x7bnew Date().getTime().toString().slice(0, -3)\x7d:starRegistry" ∧
    requestMessageOwnershipVerification "abc" 5 ≠ "abc:5:starRegistry" :=
  ⟨rfl, by decide⟩

/-- C10: the challenge message resolved by requestMessageOwnershipVerification
is one fixed constant: for every pair of addresses and every pair of clock
readings the resolved strings are identical. -/
theorem request_message_constant (a1 a2 : String) (t1 t2 : Int) :
    requestMessageOwnershipVerification a1 t1 =
      requestMessageOwnershipVerification a2 t2 :=
  rfl

/-- C7: the constructor does not stop at the genesis block: after building the
genesis it performs the hard-coded submitStar it labels a unit test, so
whenever the external verifier accepts the embedded message, address and
signature triple, the freshly constructed chain holds two blocks at height 1
instead of the single genesis block at height 0. -/
theorem construct_embedded_submission (digest : Block → String)
    (verify : String → String → String → Bool) (currentTime : Int) (now : String)
    (h : verify testMessage testAddress testSignature = true) :
    (Blockchain.construct digest verify currentTime now).chain.length = 2 ∧
    (Blockchain.construct digest verify currentTime now).height = 1 := by
  simp [Blockchain.construct, Blockchain.submitStar, Blockchain.initializeChain,
    Blockchain._addBlock, blockchainFresh, h]

theorem construct_embedded_submission_witness :
    ((fun _ _ _ => true) testMessage testAddress testSignature : Bool) = true ∧
    ((Blockchain.construct (fun _ => "D") (fun _ _ _ => true) 0 "n").chain.length = 2 ∧
     (Blockchain.construct (fun _ => "D") (fun _ _ _ => true) 0 "n").height = 1) :=
  ⟨rfl, construct_embedded_submission (fun _ => "D") (fun _ _ _ => true) 0 "n" rfl⟩

/-- C9: on an initialized chain, a submitStar call that rejects (as every call
with a failing signature verification does, with the validation message)
leaves the chain array and the height counter untouched, and a call that
resolves appends exactly the resolved block at the end of the chain and raises
the height counter by one. -/
theorem submitStar_state_effects (digest : Block → String)
    (verify : String → String → String → Bool) (currentTime : Int)
    (now address message signature : String) (star : Star)
    (self : Blockchain) (hinit : self.height ≠ -1) :
    (verify message address signature = false →
        Blockchain.submitStar digest verify currentTime now address message signature star self =
          (Except.error "Message with address and signature failed the validation", self)) ∧
    (∀ e, (Blockchain.submitStar digest verify currentTime now address message signature star self).1 =
          Except.error e →
        (Blockchain.submitStar digest verify currentTime now address message signature star self).2 =
          self) ∧
    (∀ b, (Blockchain.submitStar digest verify currentTime now address message signature star self).1 =
          Except.ok b →
        (Blockchain.submitStar digest verify currentTime now address message signature star self).2.chain =
          self.chain ++ [b] ∧
        (Blockchain.submitStar digest verify currentTime now address message signature star self).2.height =
          self.height + 1) := by
  cases hv : verify message address signature with
  | false =>
    have key : Blockchain.submitStar digest verify currentTime now address message
        signature star self =
        (Except.error "Message with address and signature failed the validation", self) := by
      simp [Blockchain.submitStar, hv]
    refine ⟨fun _ => key, ?_, ?_⟩
    · intro e _; rw [key]
    · intro b hb; rw [key] at hb; cases hb
  | true =>
    have key : Blockchain.submitStar digest verify currentTime now address message
        signature star self =
        (Except.ok (Blockchain._addBlock digest now (Block.new (Body.star address star)) self).1,
         (Blockchain._addBlock digest now (Block.new (Body.star address star)) self).2) := by
      simp [Blockchain.submitStar, hv, Blockchain.initializeChain, hinit]
    refine ⟨fun hfalse => (nomatch hfalse), ?_, ?_⟩
    · intro e he; rw [key] at he; cases he
    · intro b hb
      rw [key] at hb
      injection hb with hbb
      subst hbb
      rw [key]
      exact ⟨rfl, rfl⟩

theorem submitStar_state_effects_witness :
    chainG.height ≠ -1 ∧
    (((fun _ _ _ => false : String → String → String → Bool) "m" "a" "s" = false →
        Blockchain.submitStar (fun _ => "D") (fun _ _ _ => false) 0 "n" "a" "m" "s" testStar chainG =
          (Except.error "Message with address and signature failed the validation", chainG)) ∧
     (∀ e, (Blockchain.submitStar (fun _ => "D") (fun _ _ _ => false) 0 "n" "a" "m" "s" testStar chainG).1 =
          Except.error e →
        (Blockchain.submitStar (fun _ => "D") (fun _ _ _ => false) 0 "n" "a" "m" "s" testStar chainG).2 =
          chainG) ∧
     (∀ b, (Blockchain.submitStar (fun _ => "D") (fun _ _ _ => false) 0 "n" "a" "m" "s" testStar chainG).1 =
          Except.ok b →
        (Blockchain.submitStar (fun _ => "D") (fun _ _ _ => false) 0 "n" "a" "m" "s" testStar chainG).2.chain =
          chainG.chain ++ [b] ∧
        (Blockchain.submitStar (fun _ => "D") (fun _ _ _ => false) 0 "n" "a" "m" "s" testStar chainG).2.height =
          chainG.height + 1)) :=
  ⟨by decide,
   submitStar_state_effects (fun _ => "D") (fun _ _ _ => false) 0 "n" "a" "m" "s"
     testStar chainG (by decide)⟩

end StarRegistry
